import Mathlib

/-!
Verification of the client-side state-synchronization and control-action
orchestration logic of the prep-brain dashboard (frontend/src/App.jsx).

The dashboard is a single React component talking to a control-plane HTTP API.
We shallowly embed the parts of App.jsx the specification talks about:

* a model of JSON values (the bodies the dashboard reads and writes),
* the helper `apiRequest` (fetch wrapper translating non-2xx responses into
  thrown error messages),
* each load function and action handler as a pure function from a network
  oracle (the outcome of each HTTP request) to the ordered trace of
  observable effects the handler performs: requests issued, state slices
  replaced, the processing flag toggled, notices and errors emitted,
* the flash (notice/error) slot as a small state machine driven by those
  traces, and
* the identifier environment of the App component, for the scope analysis of
  the inventory SAVE COUNTS control.

Network calls are the only suspension points in the source; each handler runs
to completion between them, so a handler is faithfully represented by the
sequence of effects it performs given the outcome of each of its requests.
-/

namespace PrepBrain

/-- Model of a JSON value, as produced by `JSON.parse` and consumed by
`JSON.stringify` in App.jsx.  Objects are ordered association lists, matching
the insertion-ordered string-keyed properties of a parsed JSON object. -/
inductive Json where
  | null : Json
  | bool (b : Bool) : Json
  | num (q : ℚ) : Json
  | str (s : String) : Json
  | arr (elems : List Json) : Json
  | obj (fields : List (String × Json)) : Json

/-- JavaScript truthiness of a JSON value: `null`, `false`, `0` and the empty
string are falsy; every object and array is truthy. -/
def truthy : Json → Bool
  | .null => false
  | .bool b => b
  | .num q => !(q == 0)
  | .str s => !(s == "")
  | .arr _ => true
  | .obj _ => true

/-- Property read on an object field list: the value of the first binding of
the key, if any. -/
def findField : List (String × Json) → String → Option Json
  | [], _ => none
  | (k, v) :: rest, key => if k = key then some v else findField rest key

/-- Property write on an object field list: replace the first binding of the
key, or append a new binding, as JavaScript property assignment does. -/
def setField : List (String × Json) → String → Json → List (String × Json)
  | [], key, v => [(key, v)]
  | (k, w) :: rest, key, v =>
    if k = key then (key, v) :: rest else (k, w) :: setField rest key v

/-- Property read `j[key]` of a data key on a JSON value: defined on objects,
absent (`none`, modelling `undefined`) on every other value. -/
def Json.lookup : Json → String → Option Json
  | .obj fs, key => findField fs key
  | _, _ => none

/-- Iterated property read along a path of keys. -/
def Json.lookupPath : Json → List String → Option Json
  | j, [] => some j
  | j, key :: rest =>
    match j.lookup key with
    | some v => v.lookupPath rest
    | none => none

/-- Iterated property assignment `j.k1.k2...kn = v`, as used by the mutation
chain in saveSettings, acting on the serialized (JSON) form of the value.
App.jsx is an ES module, hence strict mode: assigning a property of a
primitive (a string, number, boolean or null container), or of the undefined
produced by a missing intermediate key, throws a TypeError — the error
branch here.  An array is an object, so the assignment itself succeeds on
it, but a non-index property added to an array does not survive
JSON.stringify: the serialized value is returned unchanged. -/
def Json.setPath : Json → List String → Json → Except String Json
  | _, [], v => .ok v
  | j, key :: rest, v =>
    match j with
    | .obj fs =>
      match rest with
      | [] => .ok (.obj (setField fs key v))
      | _ :: _ =>
        match findField fs key with
        | some w =>
          match Json.setPath w rest v with
          | .ok w2 => .ok (.obj (setField fs key w2))
          | .error e => .error e
        | none => .error "TypeError"
    | .arr elems => .ok (.arr elems)
    | _ => .error "TypeError"

/-- The value a SUCCESSFUL run of the assignment chain produces, as a total
function: the same recursion as Json.setPath with every branch on which
Json.setPath throws collapsed to the identity (no successful run reaches
them — setPath_ok_eq below).  Used only to state the frame lemmas. -/
def Json.setPathD : Json → List String → Json → Json
  | _, [], v => v
  | j, key :: rest, v =>
    match j with
    | .obj fs =>
      match rest with
      | [] => .obj (setField fs key v)
      | _ :: _ =>
        match findField fs key with
        | some w => .obj (setField fs key (Json.setPathD w rest v))
        | none => .obj fs
    | _ => j

/-- The defaulting idiom `x || \x7b\x7d` from saveSettings: keep a truthy
value, replace a falsy or absent one by an empty object. -/
def jsOrEmptyObj : Option Json → Json
  | some v => if truthy v then v else .obj []
  | none => .obj []

/-- Deep clone via `JSON.parse(JSON.stringify(x))`.  On values of our Json
model (exactly the JSON-representable values) the round trip is the
identity. -/
def deepClone (j : Json) : Json := j

/-- JavaScript string coercion of a JSON value, as performed by template
literals and `new Error(x).message` in App.jsx.  Number rendering is
approximated by the rational literal; the dashboard only coerces strings in
the places the specification talks about. -/
def jsToString : Json → String
  | .null => "null"
  | .bool b => cond b "true" "false"
  | .num q => toString q
  | .str s => s
  | .arr _ => ""
  | .obj _ => "[object Object]"

/-- Template-literal interpolation of a possibly-absent property:
an absent property (`undefined`) renders as the string undefined. -/
def jsTemplate : Option Json → String
  | none => "undefined"
  | some v => jsToString v

/-- Property read defaulted to null: `payload?.k` collapsed to a falsy value
when the key is absent.  Only the truthiness and the string coercion of the
result are ever used, for which null and undefined agree. -/
def jsFieldD (j : Json) (key : String) : Json :=
  (j.lookup key).getD .null

/-- The JavaScript `a || b` on JSON values: the first operand if truthy,
otherwise the second. -/
def jsOr (a b : Json) : Json :=
  if truthy a then a else b

/-! The apiRequest fetch wrapper (App.jsx lines 348-365). -/

/-- An HTTP response as observed through the Fetch API by apiRequest:
the 2xx flag `response.ok`, the content-type header, the body as parsed by
`response.json()` (`none` when the text does not parse as JSON, in which case
`response.json()` rejects), and the body as returned by `response.text()`. -/
structure HttpResponse where
  ok : Bool
  contentType : String
  jsonBody : Option Json
  textBody : String

/-- Payload apiRequest resolves with: parsed JSON when the content type says
JSON, raw text otherwise. -/
inductive FetchPayload where
  | json (j : Json) : FetchPayload
  | text (s : String) : FetchPayload

/-- Substring test, modelling `String.prototype.includes`. -/
def strContains (s pat : String) : Bool :=
  decide (pat.toList <:+: s.toList)

/-- The error message apiRequest throws for a non-2xx response, from the
resolved payload: a string payload verbatim; otherwise the `detail` property,
else the `message` property, else the fallback Request failed, each taken if
truthy, coerced to a string. -/
def errDetail : FetchPayload → String
  | .text s => s
  | .json (.str s) => s
  | .json j =>
    jsToString (jsOr (jsOr (jsFieldD j "detail") (jsFieldD j "message"))
      (.str "Request failed"))

/-- The apiRequest wrapper: resolve the payload according to the content
type, then return it for a 2xx response and throw the derived error message
otherwise.  A JSON content type whose body does not parse makes
`response.json()` reject, which apiRequest propagates as a parse error. -/
def apiRequest (r : HttpResponse) : Except String FetchPayload :=
  if strContains r.contentType "application/json" then
    match r.jsonBody with
    | none => .error "Unexpected end of JSON input"
    | some j => if r.ok then .ok (.json j) else .error (errDetail (.json j))
  else
    if r.ok then .ok (.text r.textBody) else .error (errDetail (.text r.textBody))

/-! Traces of observable effects of the App handlers.

Each load function and handler of the App component is embedded as a function
from a network oracle to the ordered list of effects it performs.  The oracle
maps a request (method and path) to the outcome apiRequest settles with:
the resolved payload or the thrown error message. -/

/-- Outcome of every HTTP request the dashboard can issue, keyed by method
and path: the payload apiRequest resolves with, or the error message it
throws. -/
def Net := String → String → Except String Json

/-- One observable effect of a handler: an HTTP request issued (with its
JSON body when the source serializes one), the processing flag toggled, an
error or notice emitted through the shared flash slot, both flash slots
cleared, a client-side log line appended, or a client state slice replaced
wholesale (named after the state hook the source calls). -/
inductive Ev where
  | call (method : String) (path : String) (body : Option Json) : Ev
  | setProcessing (b : Bool) : Ev
  | emitError (msg : String) : Ev
  | emitNotice (msg : String) : Ev
  | clearFlash : Ev
  | appendLog (msg : String) : Ev
  | setState (slot : String) : Ev

/-! Load functions: each issues one GET, replaces its state slice on success
and surfaces its own error, prefixed with the domain name, on failure. -/

/-- loadStatus (App.jsx 542-549). -/
def loadStatus (net : Net) : List Ev :=
  .call "GET" "/api/status" none ::
    match net "GET" "/api/status" with
    | .ok _ => [.setState "statusData"]
    | .error e => [.emitError ("Status load failed: " ++ e)]

/-- loadAutonomyStatus (App.jsx 551-558). -/
def loadAutonomyStatus (net : Net) : List Ev :=
  .call "GET" "/api/autonomy/status" none ::
    match net "GET" "/api/autonomy/status" with
    | .ok _ => [.setState "autonomyStatus"]
    | .error e => [.emitError ("Autonomy status failed: " ++ e)]

/-- loadAutonomyLogs (App.jsx 560-567). -/
def loadAutonomyLogs (net : Net) : List Ev :=
  .call "GET" "/api/autonomy/logs" none ::
    match net "GET" "/api/autonomy/logs" with
    | .ok _ => [.setState "autonomyLogs"]
    | .error e => [.emitError ("Autonomy logs failed: " ++ e)]

/-- loadLogs (App.jsx 569-577).  The level is the argument if truthy, else
the current logFilter state (`filterValue || logFilter`). -/
def loadLogs (net : Net) (filterValue : Option String) (logFilter : String) : List Ev :=
  let level :=
    match filterValue with
    | some s => if s = "" then logFilter else s
    | none => logFilter
  .call "GET" ("/api/logs?lines=120&level=" ++ level) none ::
    match net "GET" ("/api/logs?lines=120&level=" ++ level) with
    | .ok _ => [.setState "logs"]
    | .error e => [.emitError ("Logs load failed: " ++ e)]

/-- loadSessions (App.jsx 579-590).  On success the session list is replaced
and, when the returned rows are non-empty and no session is selected, the
selection is initialised to the first row. -/
def loadSessions (net : Net) (selectedSessionId : Json) : List Ev :=
  .call "GET" "/api/sessions" none ::
    match net "GET" "/api/sessions" with
    | .ok p =>
      let rows := jsOr (jsFieldD p "items") (.arr [])
      let rowsNonempty :=
        match rows with
        | .arr (_ :: _) => true
        | _ => false
      .setState "sessions" ::
        (if rowsNonempty && !(truthy selectedSessionId) then
          [.setState "selectedSessionId"]
        else [])
    | .error e => [.emitError ("Sessions load failed: " ++ e)]

/-- loadKnowledge (App.jsx 605-612). -/
def loadKnowledge (net : Net) : List Ev :=
  .call "GET" "/api/knowledge" none ::
    match net "GET" "/api/knowledge" with
    | .ok _ => [.setState "knowledge"]
    | .error e => [.emitError ("Knowledge load failed: " ++ e)]

/-- loadConfig (App.jsx 614-633): on success both the server truth and the
edit draft are replaced. -/
def loadConfig (net : Net) : List Ev :=
  .call "GET" "/api/config" none ::
    match net "GET" "/api/config" with
    | .ok _ => [.setState "configData", .setState "configDraft"]
    | .error e => [.emitError ("Config load failed: " ++ e)]

/-- loadAbout (App.jsx 635-641). -/
def loadAbout (net : Net) : List Ev :=
  .call "GET" "/api/system/info" none ::
    match net "GET" "/api/system/info" with
    | .ok _ => [.setState "aboutInfo"]
    | .error e => [.emitError ("System info load failed: " ++ e)]

/-- loadVendors (App.jsx 665-672). -/
def loadVendors (net : Net) : List Ev :=
  .call "GET" "/api/vendors" none ::
    match net "GET" "/api/vendors" with
    | .ok _ => [.setState "vendors"]
    | .error e => [.emitError ("Vendors load failed: " ++ e)]

/-- loadVendorItems (App.jsx 746-753). -/
def loadVendorItems (net : Net) (vendorId : String) : List Ev :=
  .call "GET" ("/api/vendors/" ++ vendorId ++ "/items") none ::
    match net "GET" ("/api/vendors/" ++ vendorId ++ "/items") with
    | .ok _ => [.setState "vendorItems"]
    | .error e => [.emitError ("Items load failed: " ++ e)]

/-- loadInventorySheets (App.jsx 787-794). -/
def loadInventorySheets (net : Net) : List Ev :=
  .call "GET" "/api/inventory/sheets" none ::
    match net "GET" "/api/inventory/sheets" with
    | .ok _ => [.setState "inventorySheets"]
    | .error e => [.emitError ("Inventory sheets load failed: " ++ e)]

/-- loadRecipes (App.jsx 796-803). -/
def loadRecipes (net : Net) : List Ev :=
  .call "GET" "/api/recipes" none ::
    match net "GET" "/api/recipes" with
    | .ok _ => [.setState "recipes"]
    | .error e => [.emitError ("Recipes load failed: " ++ e)]

/-! Control-action handlers. -/

/-- The notice text `payload.message || fallback`: the message property of
the response when truthy, else the generic fallback. -/
def jsMessageOr (p : Json) (fallback : String) : String :=
  let m := jsFieldD p "message"
  if truthy m then jsToString m else fallback

/-- controlBot (App.jsx 870-879): POST the bot action, then unconditionally
reload status and logs, then emit the server message or a generic notice;
on failure emit the error prefixed with the action name. -/
def controlBot (net : Net) (action : String) (logFilter : String) : List Ev :=
  .call "POST" ("/api/control/bot/" ++ action) none ::
    match net "POST" ("/api/control/bot/" ++ action) with
    | .ok p =>
      loadStatus net ++ loadLogs net (some logFilter) logFilter ++
        [.emitNotice (jsMessageOr p ("Bot " ++ action ++ " executed."))]
    | .error e => [.emitError ("Bot " ++ action ++ " failed: " ++ e)]

/-- controlOllama (App.jsx 881-889): POST the action, then reload status,
then emit the server message or a generic notice. -/
def controlOllama (net : Net) (action : String) : List Ev :=
  .call "POST" ("/api/control/ollama/" ++ action) none ::
    match net "POST" ("/api/control/ollama/" ++ action) with
    | .ok p =>
      loadStatus net ++
        [.emitNotice (jsMessageOr p ("Ollama " ++ action ++ " executed."))]
    | .error e => [.emitError ("Ollama " ++ action ++ " failed: " ++ e)]

/-- The client log line handleExecuteSequence appends before its pipeline. -/
def executeSequenceLogMsg : String :=
  "Execute sequence accepted. Starting local services and restart cycle."

/-- handleExecuteSequence (App.jsx 896-911): set the processing flag, append
a client log line, then inside a try block start the LLM backend, restart
the bot, reload status, reload logs, and emit a completion notice; the catch
block surfaces the single rejection that aborted the pipeline; the finally
block clears the processing flag on every path. -/
def handleExecuteSequence (net : Net) (logFilter : String) : List Ev :=
  .setProcessing true ::
  .appendLog executeSequenceLogMsg ::
    ((.call "POST" "/api/control/ollama/start" none ::
      match net "POST" "/api/control/ollama/start" with
      | .error e => [.emitError ("Execute sequence failed: " ++ e)]
      | .ok _ =>
        .call "POST" "/api/control/bot/restart" none ::
          match net "POST" "/api/control/bot/restart" with
          | .error e => [.emitError ("Execute sequence failed: " ++ e)]
          | .ok _ =>
            loadStatus net ++ loadLogs net (some logFilter) logFilter ++
              [.emitNotice "Execute sequence completed."]) ++
      [.setProcessing false])

/-- The client log line handleEmergencyStop appends. -/
def emergencyStopLogMsg : String :=
  "Emergency stop command issued. Halting automation."

/-- handleEmergencyStop (App.jsx 913-917): clear the processing flag
synchronously, append a client log line, then run the bot stop action. -/
def handleEmergencyStop (net : Net) (logFilter : String) : List Ev :=
  .setProcessing false ::
  .appendLog emergencyStopLogMsg ::
    controlBot net "stop" logFilter

/-- saveVendor (App.jsx 674-692): id-absent (falsy) vendors POST to the
collection, id-bearing vendors PUT to the entity URL; a success refetches
the vendor list, closes the editor and emits a notice. -/
def saveVendor (net : Net) (vendor : Json) : List Ev :=
  let isNew := !(truthy (jsFieldD vendor "id"))
  let url :=
    if isNew then "/api/vendors"
    else "/api/vendors/" ++ jsTemplate (vendor.lookup "id")
  let method := if isNew then "POST" else "PUT"
  .call method url (some vendor) ::
    match net method url with
    | .ok _ =>
      loadVendors net ++
        [.setState "editingVendor",
         .emitNotice ("Vendor " ++ (if isNew then "created" else "updated") ++ ".")]
    | .error e => [.emitError ("Save vendor failed: " ++ e)]

/-- deleteVendor (App.jsx 694-703): confirm dialog first (the boolean
argument is the answer of the blocking confirm call); a success refetches
the vendor list. -/
def deleteVendor (net : Net) (confirmOk : Bool) (vendorId : String) : List Ev :=
  if !confirmOk then []
  else
    .call "DELETE" ("/api/vendors/" ++ vendorId) none ::
      match net "DELETE" ("/api/vendors/" ++ vendorId) with
      | .ok _ => loadVendors net ++ [.emitNotice "Vendor deleted."]
      | .error e => [.emitError ("Delete vendor failed: " ++ e)]

/-- The client-local edit buffer of the vendor email composer; only the
fields generateDraft reads are modelled. -/
structure EditingDraft where
  vendorId : Json
  context : String

/-- generateDraft (App.jsx 705-731): a missing buffer or an empty context
is rejected locally with an error and nothing else happens; otherwise the
processing flag brackets one POST whose success replaces the draft buffer
and whose failure is surfaced, the flag being cleared in the finally
block. -/
def generateDraft (net : Net) (editingDraft : Option EditingDraft) : List Ev :=
  match editingDraft with
  | none => [.emitError "Please enter order details first."]
  | some d =>
    if d.context = "" then [.emitError "Please enter order details first."]
    else
      .setProcessing true ::
        ((.call "POST" "/api/composer/draft"
            (some (.obj [("vendor_id", d.vendorId), ("context", .str d.context)])) ::
          match net "POST" "/api/composer/draft" with
          | .ok _ => [.setState "editingDraft", .emitNotice "Draft generated."]
          | .error e => [.emitError ("Draft generation failed: " ++ e)]) ++
          [.setProcessing false])

/-- saveVendorItem (App.jsx 755-774): nothing happens without an active
vendor (the argument is its id); id-absent items POST to the items
collection of the active vendor, id-bearing items PUT to the item URL; a
success refetches the item list of the active vendor. -/
def saveVendorItem (net : Net) (activeVendorForItems : Option String)
    (item : Json) : List Ev :=
  match activeVendorForItems with
  | none => []
  | some vid =>
    let isNew := !(truthy (jsFieldD item "id"))
    let url :=
      if isNew then "/api/vendors/" ++ vid ++ "/items"
      else "/api/vendors/items/" ++ jsTemplate (item.lookup "id")
    let method := if isNew then "POST" else "PUT"
    .call method url (some item) ::
      match net method url with
      | .ok _ =>
        loadVendorItems net vid ++
          [.setState "editingItem",
           .emitNotice ("Item " ++ (if isNew then "added" else "updated") ++ ".")]
      | .error e => [.emitError ("Save item failed: " ++ e)]

/-- deleteVendorItem (App.jsx 776-785): confirm dialog first; a success
refetches the item list when a vendor is active. -/
def deleteVendorItem (net : Net) (confirmOk : Bool)
    (activeVendorForItems : Option String) (itemId : String) : List Ev :=
  if !confirmOk then []
  else
    .call "DELETE" ("/api/vendors/items/" ++ itemId) none ::
      match net "DELETE" ("/api/vendors/items/" ++ itemId) with
      | .ok _ =>
        (match activeVendorForItems with
         | some vid => loadVendorItems net vid
         | none => []) ++ [.emitNotice "Item deleted."]
      | .error e => [.emitError ("Delete item failed: " ++ e)]

/-- saveRecipe (App.jsx 805-823): id-absent recipes POST to the collection,
id-bearing recipes PUT to the entity URL; a success refetches the recipe
list, closes the editor and emits a notice. -/
def saveRecipe (net : Net) (recipe : Json) : List Ev :=
  let isNew := !(truthy (jsFieldD recipe "id"))
  let url :=
    if isNew then "/api/recipes"
    else "/api/recipes/" ++ jsTemplate (recipe.lookup "id")
  let method := if isNew then "POST" else "PUT"
  .call method url (some recipe) ::
    match net method url with
    | .ok _ =>
      loadRecipes net ++
        [.setState "editingRecipe",
         .emitNotice ("Recipe " ++ (if isNew then "created" else "updated") ++ ".")]
    | .error e => [.emitError ("Save recipe failed: " ++ e)]

/-- deleteRecipe (App.jsx 825-834): confirm dialog first; a success
refetches the recipe list. -/
def deleteRecipe (net : Net) (confirmOk : Bool) (recipeId : String) : List Ev :=
  if !confirmOk then []
  else
    .call "DELETE" ("/api/recipes/" ++ recipeId) none ::
      match net "DELETE" ("/api/recipes/" ++ recipeId) with
      | .ok _ => loadRecipes net ++ [.emitNotice "Recipe deleted."]
      | .error e => [.emitError ("Delete recipe failed: " ++ e)]

/-- toggleKnowledgeSource (App.jsx 934-946): POST the toggle, then refetch
the knowledge list on success. -/
def toggleKnowledgeSource (net : Net) (sourceId : String) (active : Bool) : List Ev :=
  .call "POST" ("/api/knowledge/" ++ sourceId ++ "/toggle")
      (some (.obj [("active", .bool active)])) ::
    match net "POST" ("/api/knowledge/" ++ sourceId ++ "/toggle") with
    | .ok _ =>
      loadKnowledge net ++
        [.emitNotice ("Source " ++ (if active then "enabled" else "disabled") ++ ".")]
    | .error e => [.emitError ("Toggle source failed: " ++ e)]

/-- deleteKnowledgeSource (App.jsx 948-956): DELETE the source, then refetch
the knowledge list on success. -/
def deleteKnowledgeSource (net : Net) (sourceId : String) : List Ev :=
  .call "DELETE" ("/api/knowledge/" ++ sourceId) none ::
    match net "DELETE" ("/api/knowledge/" ++ sourceId) with
    | .ok _ => loadKnowledge net ++ [.emitNotice "Source removed successfully."]
    | .error e => [.emitError ("Delete source failed: " ++ e)]

/-- uploadKnowledgeSource (App.jsx 958-980): without a selected file a local
error is emitted and nothing else happens; otherwise the multipart upload is
POSTed (no JSON body), a success emits an ingestion notice, clears the file
selection and refetches the knowledge list. -/
def uploadKnowledgeSource (net : Net) (uploadFile : Option String)
    (_extractImages : Bool) (_visionDescriptions : Bool) : List Ev :=
  match uploadFile with
  | none => [.emitError "Select a file before ingestion."]
  | some _ =>
    .call "POST" "/api/knowledge/upload" none ::
      match net "POST" "/api/knowledge/upload" with
      | .ok p =>
        .emitNotice ("Ingested " ++ jsTemplate (p.lookup "num_chunks") ++
            " chunks from " ++ jsTemplate (p.lookup "source_title") ++ ".") ::
          .setState "uploadFile" :: loadKnowledge net
      | .error e => [.emitError ("Ingestion failed: " ++ e)]

/-! Settings save (App.jsx 1017-1051). -/

/-- The client-local config edit buffer, as populated by loadConfig: the
numeric fields are held as strings (input box values) and coerced by
`Number(...)` on save. -/
structure ConfigDraft where
  model : String
  temperature : String
  maxTokens : String
  topK : String
  ragEnabled : Bool
  ocrEnabled : Bool
  extractImages : Bool
  visionEnabled : Bool
  visionModel : String

/-- The PUT body saveSettings builds: a deep clone of the last-fetched
config in which the containers ollama, rag, rag.ocr, rag.image_processing
and rag.vision are defaulted to objects when falsy or absent, and exactly
the nine draft-backed fields are overwritten from the draft.  Every step is
a strict-mode property assignment: when one of the five containers holds a
truthy primitive (kept as-is by the `|| \x7b\x7d` defaulting), the first
write through it throws a TypeError, aborting the chain — the error result.
The JavaScript `Number(...)` string-to-number coercion is passed in as
`toNum` (the frame properties proved below hold for every coercion).
`Boolean(...)` on the Bool-typed draft fields is the identity and is
elided. -/
def saveSettingsBody (toNum : String → Json) (configData : Json)
    (draft : ConfigDraft) : Except String Json := do
  let next := deepClone configData
  let next ← next.setPath ["ollama"] (jsOrEmptyObj (next.lookup "ollama"))
  let next ← next.setPath ["rag"] (jsOrEmptyObj (next.lookup "rag"))
  let next ← next.setPath ["rag", "ocr"]
    (jsOrEmptyObj (next.lookupPath ["rag", "ocr"]))
  let next ← next.setPath ["rag", "image_processing"]
    (jsOrEmptyObj (next.lookupPath ["rag", "image_processing"]))
  let next ← next.setPath ["rag", "vision"]
    (jsOrEmptyObj (next.lookupPath ["rag", "vision"]))
  let next ← next.setPath ["ollama", "model"] (.str draft.model)
  let next ← next.setPath ["ollama", "temperature"] (toNum draft.temperature)
  let next ← next.setPath ["ollama", "max_tokens"] (toNum draft.maxTokens)
  let next ← next.setPath ["rag", "top_k"] (toNum draft.topK)
  let next ← next.setPath ["rag", "enabled"] (.bool draft.ragEnabled)
  let next ← next.setPath ["rag", "ocr", "enabled"] (.bool draft.ocrEnabled)
  let next ← next.setPath ["rag", "image_processing", "extract_images"]
    (.bool draft.extractImages)
  let next ← next.setPath ["rag", "vision", "enabled"] (.bool draft.visionEnabled)
  let next ← next.setPath ["rag", "vision", "model"] (.str draft.visionModel)
  pure next

/-- The value of a successful saveSettingsBody run, as a total function: the
same chain over Json.setPathD.  saveSettingsBody_ok_val below shows every
successful run returns exactly this value; the frame lemmas are stated
about it. -/
def saveSettingsBodyD (toNum : String → Json) (configData : Json)
    (draft : ConfigDraft) : Json :=
  let next := deepClone configData
  let next := next.setPathD ["ollama"] (jsOrEmptyObj (next.lookup "ollama"))
  let next := next.setPathD ["rag"] (jsOrEmptyObj (next.lookup "rag"))
  let next := next.setPathD ["rag", "ocr"]
    (jsOrEmptyObj (next.lookupPath ["rag", "ocr"]))
  let next := next.setPathD ["rag", "image_processing"]
    (jsOrEmptyObj (next.lookupPath ["rag", "image_processing"]))
  let next := next.setPathD ["rag", "vision"]
    (jsOrEmptyObj (next.lookupPath ["rag", "vision"]))
  let next := next.setPathD ["ollama", "model"] (.str draft.model)
  let next := next.setPathD ["ollama", "temperature"] (toNum draft.temperature)
  let next := next.setPathD ["ollama", "max_tokens"] (toNum draft.maxTokens)
  let next := next.setPathD ["rag", "top_k"] (toNum draft.topK)
  let next := next.setPathD ["rag", "enabled"] (.bool draft.ragEnabled)
  let next := next.setPathD ["rag", "ocr", "enabled"] (.bool draft.ocrEnabled)
  let next := next.setPathD ["rag", "image_processing", "extract_images"]
    (.bool draft.extractImages)
  let next := next.setPathD ["rag", "vision", "enabled"] (.bool draft.visionEnabled)
  let next := next.setPathD ["rag", "vision", "model"] (.str draft.visionModel)
  next

/-- saveSettings: nothing happens while either the server config or the
draft is still null; otherwise the body is rebuilt from the draft and PUT to
the config endpoint — a success replaces the server truth, emits a notice
and reloads status.  The mutation chain runs before the try block
(App.jsx 1022-1037): if one of its assignments throws, the TypeError escapes
the handler uncaught, so no request is issued and no flash or state update
happens — the empty trace. -/
def saveSettings (toNum : String → Json) (net : Net) (configData : Option Json)
    (configDraft : Option ConfigDraft) : List Ev :=
  match configData, configDraft with
  | some cfg, some draft =>
    match saveSettingsBody toNum cfg draft with
    | .ok body =>
      .call "PUT" "/api/config" (some body) ::
        (match net "PUT" "/api/config" with
         | .ok _ =>
           .setState "configData" :: .emitNotice "Configuration saved." ::
             loadStatus net
         | .error e => [.emitError ("Save config failed: " ++ e)])
    | .error _ => []
  | _, _ => []

/-! The polling interval effect (App.jsx 650-663) and the tab-switch fetch
effect (App.jsx 836-857). -/

/-- One tick of the 5-second polling interval: status is always reloaded;
logs are additionally reloaded on the overview tab, autonomy status and logs
on the autonomy tab. -/
def pollTick (net : Net) (activeTab : String) (logFilter : String) : List Ev :=
  loadStatus net ++
    (if activeTab = "overview" then loadLogs net (some logFilter) logFilter else []) ++
    (if activeTab = "autonomy" then loadAutonomyStatus net ++ loadAutonomyLogs net
     else [])

/-- The tab-switch effect: entering a tab immediately fetches that tab
primary data set. -/
def tabSwitchEffect (net : Net) (activeTab : String)
    (selectedSessionId : Json) : List Ev :=
  (if activeTab = "autonomy" then loadAutonomyStatus net ++ loadAutonomyLogs net
   else []) ++
  (if activeTab = "sessions" then loadSessions net selectedSessionId else []) ++
  (if activeTab = "knowledge" then loadKnowledge net else []) ++
  (if activeTab = "vendors" then loadVendors net else []) ++
  (if activeTab = "inventory" then loadInventorySheets net else []) ++
  (if activeTab = "recipes" then loadRecipes net else []) ++
  (if activeTab = "settings" then loadConfig net else []) ++
  (if activeTab = "about" then loadAbout net else [])

/-- The interval subscription the polling effect owns: `setInterval(cb,
5000)` registers it, and the cleanup returned by the effect is exactly
`() => clearInterval(timer)`. -/
structure PollSubscription where
  intervalMs : Nat
  active : Bool

/-- The effect body: register a 5000 ms interval. -/
def setupPolling : PollSubscription :=
  { intervalMs := 5000, active := true }

/-- The effect cleanup: clear the interval, after which no tick fires. -/
def teardownPolling (s : PollSubscription) : PollSubscription :=
  { s with active := false }

/-- A tick can fire only while the interval subscription is live. -/
def tickFires (s : PollSubscription) : Bool :=
  s.active

/-! The shared flash slot (App.jsx 521-534): notice and error strings plus
the three functions that mutate them, replayed over handler traces. -/

/-- The two flash state hooks of the App component. -/
structure FlashState where
  error : String
  notice : String

/-- The flash slots at mount: both empty. -/
def flashInit : FlashState :=
  { error := "", notice := "" }

/-- Effect of one trace event on the flash slots: emitError sets the error
and clears the notice, emitNotice sets the notice and clears the error,
clearFlash clears both; no other event touches them (setError and setNotice
have no other call site in App.jsx). -/
def flashStep (s : FlashState) : Ev → FlashState
  | .emitError m => { error := m, notice := "" }
  | .emitNotice m => { notice := m, error := "" }
  | .clearFlash => { error := "", notice := "" }
  | _ => s

/-- Replay of a trace over the flash slots. -/
def flashRun (s : FlashState) (evs : List Ev) : FlashState :=
  evs.foldl flashStep s

/-- Mutual exclusion of the flash slots: at most one of them is non-empty. -/
def flashExclusive (s : FlashState) : Prop :=
  s.error = "" ∨ s.notice = ""

/-! Identifier environment of the inventory SAVE COUNTS control
(App.jsx 1736).  The JSX of the App component can reference the module-scope
bindings of App.jsx, the names imported at the top of the file, and the
bindings of the App function body itself.  The lists below transcribe those
bindings exhaustively from the source. -/

/-- Names bound at module scope in App.jsx (top-level const and function
declarations) together with the imported names. -/
def moduleScopeIdentifiers : List String :=
  ["useCallback", "useEffect", "useMemo", "useState",
   "AlertTriangle", "BatteryCharging", "BookOpenText", "Clock3", "Hand",
   "Info", "Layers3", "Mail", "MapPin", "Phone", "Play", "Radio",
   "RefreshCw", "Settings2", "Shield", "Send", "FileEdit", "Thermometer",
   "Trash2", "Truck", "Upload", "Package", "ClipboardList", "Activity",
   "Menu", "X",
   "API_BASE", "MenuEngineeringView", "PrepListView", "AutonomyView",
   "TABS", "iconProps", "defaultStatus", "formatUptime", "apiRequest",
   "Panel", "SectionTitle", "statusPillClass", "ServiceSwitch", "App"]

/-- Names bound inside the body of the App component (state hooks with
their setters, memos, and every handler).  saveCounts exists only inside the
separate PrepListView component and is therefore not in this list. -/
def appBodyIdentifiers : List String :=
  ["activeTab", "setActiveTab", "isSidebarOpen", "setIsSidebarOpen",
   "statusData", "setStatusData", "autonomyStatus", "setAutonomyStatus",
   "autonomyLogs", "setAutonomyLogs", "logs", "setLogs",
   "logFilter", "setLogFilter", "sessions", "setSessions",
   "selectedSessionId", "setSelectedSessionId",
   "sessionMessages", "setSessionMessages", "knowledge", "setKnowledge",
   "configData", "setConfigData", "configDraft", "setConfigDraft",
   "aboutInfo", "setAboutInfo", "vendors", "setVendors",
   "editingVendor", "setEditingVendor", "editingDraft", "setEditingDraft",
   "recipes", "setRecipes", "editingRecipe", "setEditingRecipe",
   "vendorItems", "setVendorItems", "editingItem", "setEditingItem",
   "activeVendorForItems", "setActiveVendorForItems",
   "inventorySheets", "setInventorySheets",
   "inventoryCounts", "setInventoryCounts",
   "isCountingMode", "setIsCountingMode",
   "brainPrompt", "setBrainPrompt", "brainAnswer", "setBrainAnswer",
   "audioFile", "setAudioFile", "transcript", "setTranscript",
   "uploadFile", "setUploadFile", "extractImages", "setExtractImages",
   "visionDescriptions", "setVisionDescriptions",
   "notice", "setNotice", "error", "setError",
   "processingAction", "setProcessingAction",
   "uptime", "telemetryCards", "isProcessing",
   "clearFlash", "emitError", "emitNotice", "appendClientLog",
   "loadStatus", "loadAutonomyStatus", "loadAutonomyLogs", "loadLogs",
   "loadSessions", "loadSessionMessages", "loadKnowledge", "loadConfig",
   "loadAbout", "loadVendors", "saveVendor", "deleteVendor",
   "generateDraft", "openMailClient", "loadVendorItems", "saveVendorItem",
   "deleteVendorItem", "loadInventorySheets", "loadRecipes", "saveRecipe",
   "deleteRecipe", "controlBot", "controlOllama", "handleManualOverride",
   "handleExecuteSequence", "handleEmergencyStop", "clearSelectedSession",
   "toggleKnowledgeSource", "deleteKnowledgeSource", "uploadKnowledgeSource",
   "runBrainTest", "runTranscriptionTest", "saveSettings"]

/-- Every identifier visible to the JSX of the App component. -/
def appScopeIdentifiers : List String :=
  moduleScopeIdentifiers ++ appBodyIdentifiers

/-- Identifier resolution in the App JSX scope: a bound name resolves to
itself, an unbound name does not resolve. -/
def resolveIdentifier (name : String) : Option String :=
  if name ∈ appScopeIdentifiers then some name else none

/-- Evaluating the action button of the inventory sheet header
(App.jsx 1734-1748): in counting mode the JSX reads the identifier
saveInventoryCounts for the SAVE COUNTS onClick, otherwise it builds the
inline print arrow.  Reading an unbound identifier throws a ReferenceError
while rendering, modelled as the error branch. -/
def renderInventoryActionButton (isCountingMode : Bool) : Except String String :=
  if isCountingMode then
    match resolveIdentifier "saveInventoryCounts" with
    | some h => .ok h
    | none => .error "ReferenceError: saveInventoryCounts is not defined"
  else .ok "window.print"

/-! Observers on traces. -/

/-- Whether an event is an HTTP request. -/
def isCall : Ev → Bool
  | .call _ _ _ => true
  | _ => false

/-- Whether an event is a request with the given method and path. -/
def isCallTo (method path : String) : Ev → Bool
  | .call m p _ => m == method && p == path
  | _ => false

/-- Number of requests with the given method and path in a trace. -/
def callCount (evs : List Ev) (method path : String) : Nat :=
  (evs.filter (isCallTo method path)).length

/-- Whether an event toggles the processing flag. -/
def isProcessingToggle : Ev → Bool
  | .setProcessing _ => true
  | _ => false

/-- The subsequence of processing-flag toggles of a trace. -/
def processingEvents (evs : List Ev) : List Ev :=
  evs.filter isProcessingToggle

/-! Concrete network oracles used to evaluate the theorems below on closed
inputs. -/

/-- An oracle on which every request succeeds with an empty JSON object. -/
def netOkEmpty : Net := fun _ _ => .ok (.obj [])

/-- An oracle on which the bot restart request rejects with the message
boom and every other request succeeds. -/
def netBotFails : Net := fun _ path =>
  if path = "/api/control/bot/restart" then .error "boom" else .ok (.obj [])

/-! Derived forms of the two subtrees saveSettingsBody rewrites, used to
state what the save leaves untouched. -/

/-- The ollama subtree of the PUT body: the previous subtree defaulted to an
object when falsy, with exactly model, temperature and max_tokens
overwritten. -/
def ollamaPart (toNum : String → Json) (d : ConfigDraft) (o0 : Option Json) : Json :=
  (((jsOrEmptyObj o0).setPathD ["model"] (.str d.model)).setPathD ["temperature"]
      (toNum d.temperature)).setPathD ["max_tokens"] (toNum d.maxTokens)

/-- The rag subtree of the PUT body: the previous subtree and its ocr,
image_processing and vision children defaulted to objects when falsy, with
exactly top_k, enabled, ocr.enabled, image_processing.extract_images,
vision.enabled and vision.model overwritten, in source order. -/
def ragPart (toNum : String → Json) (d : ConfigDraft) (r0 : Option Json) : Json :=
  let r := jsOrEmptyObj r0
  let r := r.setPathD ["ocr"] (jsOrEmptyObj (r.lookup "ocr"))
  let r := r.setPathD ["image_processing"] (jsOrEmptyObj (r.lookup "image_processing"))
  let r := r.setPathD ["vision"] (jsOrEmptyObj (r.lookup "vision"))
  let r := r.setPathD ["top_k"] (toNum d.topK)
  let r := r.setPathD ["enabled"] (.bool d.ragEnabled)
  let r := r.setPathD ["ocr", "enabled"] (.bool d.ocrEnabled)
  let r := r.setPathD ["image_processing", "extract_images"] (.bool d.extractImages)
  let r := r.setPathD ["vision", "enabled"] (.bool d.visionEnabled)
  let r := r.setPathD ["vision", "model"] (.str d.visionModel)
  r

/-- Whether a JSON value is an object proper — the only values whose
serialized form a property assignment can change (assignment throws on
primitives and is serialization-invariant on arrays). -/
def isObjB : Json → Bool
  | .obj _ => true
  | _ => false

/-! Basic facts about the load traces. -/

theorem processingEvents_loadStatus (net : Net) :
    processingEvents (loadStatus net) = [] := by
  cases h : net "GET" "/api/status" <;>
    simp [loadStatus, processingEvents, isProcessingToggle, h]

theorem processingEvents_loadLogs (net : Net) (fv : Option String) (lf : String) :
    processingEvents (loadLogs net fv lf) = [] := by
  unfold loadLogs
  cases fv <;>
    [skip; rename_i s]
  · cases h : net "GET" ("/api/logs?lines=120&level=" ++ lf) <;>
      simp [processingEvents, isProcessingToggle, h]
  · by_cases hs : s = "" <;>
      [cases h : net "GET" ("/api/logs?lines=120&level=" ++ lf);
       cases h : net "GET" ("/api/logs?lines=120&level=" ++ s)] <;>
      simp [processingEvents, isProcessingToggle, hs, h]

theorem processingEvents_nil : processingEvents [] = [] := rfl

theorem processingEvents_append (l1 l2 : List Ev) :
    processingEvents (l1 ++ l2) = processingEvents l1 ++ processingEvents l2 := by
  simp [processingEvents]

theorem processingEvents_cons (e : Ev) (l : List Ev) :
    processingEvents (e :: l) =
      if isProcessingToggle e then e :: processingEvents l else processingEvents l := by
  simp [processingEvents, List.filter_cons]

theorem processingEvents_controlBot (net : Net) (a lf : String) :
    processingEvents (controlBot net a lf) = [] := by
  cases h : net "POST" ("/api/control/bot/" ++ a) <;>
    simp only [controlBot, h, processingEvents_cons, processingEvents_append,
      processingEvents_loadStatus, processingEvents_loadLogs,
      processingEvents_nil, isProcessingToggle, if_false, List.nil_append,
      List.append_nil, Bool.false_eq_true, if_false]

theorem processingEvents_controlOllama (net : Net) (a : String) :
    processingEvents (controlOllama net a) = [] := by
  cases h : net "POST" ("/api/control/ollama/" ++ a) <;>
    simp only [controlOllama, h, processingEvents_cons, processingEvents_append,
      processingEvents_loadStatus, processingEvents_nil, isProcessingToggle,
      Bool.false_eq_true, if_false, List.nil_append, List.append_nil]

theorem setProcessing_notMem {l : List Ev} (h : processingEvents l = [])
    (b : Bool) : Ev.setProcessing b ∉ l := by
  intro hm
  have hall := List.filter_eq_nil_iff.mp h
  exact absurd (hall _ hm) (by simp [isProcessingToggle])

theorem getLast?_cons_concat {α : Type} (a x : α) (l : List α) :
    (a :: (l ++ [x])).getLast? = some x := by
  rw [show a :: (l ++ [x]) = (a :: l) ++ [x] from by simp]
  exact List.getLast?_concat _

theorem getLast?_cons_cons_concat {α : Type} (a b x : α) (l : List α) :
    (a :: b :: (l ++ [x])).getLast? = some x := by
  rw [show a :: b :: (l ++ [x]) = (a :: b :: l) ++ [x] from by simp]
  exact List.getLast?_concat _

/-- C1: in every run of handleExecuteSequence the processing flag is set
true as the very first effect, before any request, and cleared as the very
last effect on success and on failure alike; the first request issued is
the ollama start; if the ollama start rejects, the whole run is exactly the
flag set, the log line, that single request and that request prefixed error,
nothing else — no later step, no reload, no success notice and no
compensating request; and likewise if the bot restart rejects, the run stops
right after surfacing that error. -/
theorem executeSequence_orchestration (net : Net) (lf : String) :
    (handleExecuteSequence net lf).head? = some (.setProcessing true) ∧
    (handleExecuteSequence net lf).getLast? = some (.setProcessing false) ∧
    ((handleExecuteSequence net lf).filter isCall).head? =
      some (.call "POST" "/api/control/ollama/start" none) ∧
    (∀ e, net "POST" "/api/control/ollama/start" = .error e →
      handleExecuteSequence net lf =
        [.setProcessing true, .appendLog executeSequenceLogMsg,
         .call "POST" "/api/control/ollama/start" none,
         .emitError ("Execute sequence failed: " ++ e),
         .setProcessing false]) ∧
    (∀ p e, net "POST" "/api/control/ollama/start" = .ok p →
      net "POST" "/api/control/bot/restart" = .error e →
      handleExecuteSequence net lf =
        [.setProcessing true, .appendLog executeSequenceLogMsg,
         .call "POST" "/api/control/ollama/start" none,
         .call "POST" "/api/control/bot/restart" none,
         .emitError ("Execute sequence failed: " ++ e),
         .setProcessing false]) := by
  refine ⟨rfl, ?_, ?_, ?_, ?_⟩
  · unfold handleExecuteSequence
    exact getLast?_cons_cons_concat _ _ _ _
  · simp [handleExecuteSequence, List.filter_append, isCall]
  · intro e h1
    simp [handleExecuteSequence, h1]
  · intro p e h1 h2
    simp [handleExecuteSequence, h1, h2]

/-- C1 witness: on the oracle where the bot restart rejects with boom, the
execute sequence surfaces exactly that error and still clears the flag. -/
theorem executeSequence_orchestration_witness :
    netBotFails "POST" "/api/control/ollama/start" = .ok (.obj []) ∧
    netBotFails "POST" "/api/control/bot/restart" = .error "boom" ∧
    handleExecuteSequence netBotFails "all" =
      [.setProcessing true, .appendLog executeSequenceLogMsg,
       .call "POST" "/api/control/ollama/start" none,
       .call "POST" "/api/control/bot/restart" none,
       .emitError "Execute sequence failed: boom",
       .setProcessing false] :=
  ⟨rfl, rfl,
    (executeSequence_orchestration netBotFails "all").2.2.2.2 (.obj []) "boom" rfl rfl⟩

/-- C3: handleEmergencyStop clears the processing flag as its very first
effect, synchronously before the stop request is even issued (the stop
request is the third effect), issues exactly one stop request, and never
sets the flag true; whereas the other control actions either bracket their
work between one flag set and one flag clear with the clear as the last
effect of the run (handleExecuteSequence always, generateDraft whenever its
input passes validation), or never touch the flag at all (controlBot and
controlOllama, for every action). -/
theorem emergencyStop_bypasses_processing (net : Net) (lf : String) :
    (handleEmergencyStop net lf).head? = some (.setProcessing false) ∧
    (handleEmergencyStop net lf).take 2 =
      [.setProcessing false, .appendLog emergencyStopLogMsg] ∧
    ((handleEmergencyStop net lf).drop 2).head? =
      some (.call "POST" "/api/control/bot/stop" none) ∧
    callCount (handleEmergencyStop net lf) "POST" "/api/control/bot/stop" = 1 ∧
    Ev.setProcessing true ∉ handleEmergencyStop net lf ∧
    processingEvents (handleExecuteSequence net lf) =
      [.setProcessing true, .setProcessing false] ∧
    (handleExecuteSequence net lf).getLast? = some (.setProcessing false) ∧
    (∀ d : EditingDraft, ¬ d.context = "" →
      processingEvents (generateDraft net (some d)) =
          [.setProcessing true, .setProcessing false] ∧
        (generateDraft net (some d)).getLast? = some (.setProcessing false)) ∧
    (∀ a, processingEvents (controlBot net a lf) = []) ∧
    (∀ a, processingEvents (controlOllama net a) = []) := by
  refine ⟨rfl, rfl, rfl, ?_, ?_, ?_, ?_, ?_,
    fun a => processingEvents_controlBot net a lf,
    fun a => processingEvents_controlOllama net a⟩
  · have hpath : ("/api/control/bot/" ++ "stop" : String) = "/api/control/bot/stop" := rfl
    cases h : net "POST" "/api/control/bot/stop" <;>
      simp +decide [handleEmergencyStop, controlBot, hpath, h, callCount,
        isCallTo, List.filter_append, loadStatus, loadLogs] <;>
      cases h2 : net "GET" "/api/status" <;>
      cases h3 : net "GET" ("/api/logs?lines=120&level=" ++ lf) <;>
      simp +decide [h2, h3, isCallTo]
  · have hcb : Ev.setProcessing true ∉ controlBot net "stop" lf :=
      setProcessing_notMem (processingEvents_controlBot net "stop" lf) true
    simp [handleEmergencyStop, hcb]
  · cases h1 : net "POST" "/api/control/ollama/start"
    case error e =>
      simp [handleExecuteSequence, h1, processingEvents_cons,
        processingEvents_append, processingEvents_nil, isProcessingToggle,
        processingEvents]
    case ok p =>
      cases h2 : net "POST" "/api/control/bot/restart" <;>
        simp only [handleExecuteSequence, h1, h2, processingEvents_cons,
          processingEvents_append, processingEvents_loadStatus,
          processingEvents_loadLogs, isProcessingToggle,
          Bool.false_eq_true, if_false, if_true, List.nil_append,
          List.append_nil] <;>
        simp [processingEvents, isProcessingToggle]
  · unfold handleExecuteSequence
    exact getLast?_cons_cons_concat _ _ _ _
  · intro d hd
    constructor
    · cases h : net "POST" "/api/composer/draft" <;>
        simp [generateDraft, hd, h, processingEvents_cons,
          processingEvents_append, processingEvents_nil, isProcessingToggle,
          processingEvents]
    · simp only [generateDraft, hd, if_false]
      exact getLast?_cons_concat _ _ _

/-- C3 witness: with a non-empty composer context and the all-ok oracle,
generateDraft brackets its run between one flag set and one flag clear. -/
theorem emergencyStop_bypasses_processing_witness :
    ¬ (EditingDraft.mk Json.null "order 6 cases").context = "" ∧
    processingEvents (generateDraft netOkEmpty
        (some (EditingDraft.mk Json.null "order 6 cases"))) =
      [.setProcessing true, .setProcessing false] :=
  ⟨by decide,
    ((emergencyStop_bypasses_processing netOkEmpty "all").2.2.2.2.2.2.2.1
      (EditingDraft.mk Json.null "order 6 cases") (by decide)).1⟩

/-- C4: across the vendor, vendor-item and recipe editors, the request a
save issues is fully determined by the presence of a truthy id on the
entity: without one the save POSTs to the collection endpoint, with one it
PUTs to the entity endpoint carrying that id. -/
theorem idPresence_determines_verb (net : Net) :
    (∀ v : Json, truthy (jsFieldD v "id") = false →
      (saveVendor net v).head? = some (.call "POST" "/api/vendors" (some v))) ∧
    (∀ v : Json, truthy (jsFieldD v "id") = true →
      (saveVendor net v).head? =
        some (.call "PUT" ("/api/vendors/" ++ jsTemplate (v.lookup "id")) (some v))) ∧
    (∀ (vid : String) (item : Json), truthy (jsFieldD item "id") = false →
      (saveVendorItem net (some vid) item).head? =
        some (.call "POST" ("/api/vendors/" ++ vid ++ "/items") (some item))) ∧
    (∀ (vid : String) (item : Json), truthy (jsFieldD item "id") = true →
      (saveVendorItem net (some vid) item).head? =
        some (.call "PUT" ("/api/vendors/items/" ++ jsTemplate (item.lookup "id"))
          (some item))) ∧
    (∀ r : Json, truthy (jsFieldD r "id") = false →
      (saveRecipe net r).head? = some (.call "POST" "/api/recipes" (some r))) ∧
    (∀ r : Json, truthy (jsFieldD r "id") = true →
      (saveRecipe net r).head? =
        some (.call "PUT" ("/api/recipes/" ++ jsTemplate (r.lookup "id")) (some r))) := by
  refine ⟨?_, ?_, ?_, ?_, ?_, ?_⟩ <;> intros <;>
    simp [saveVendor, saveVendorItem, saveRecipe, *]

/-- C4 witness: a vendor without id is POSTed to the collection, a recipe
with id 7 is PUT to the entity URL containing that id. -/
theorem idPresence_determines_verb_witness :
    truthy (jsFieldD (Json.obj [("name", .str "Acme")]) "id") = false ∧
    (saveVendor netOkEmpty (Json.obj [("name", .str "Acme")])).head? =
      some (.call "POST" "/api/vendors" (some (Json.obj [("name", .str "Acme")]))) ∧
    truthy (jsFieldD (Json.obj [("id", .num 7)]) "id") = true ∧
    (saveRecipe netOkEmpty (Json.obj [("id", .num 7)])).head? =
      some (.call "PUT" "/api/recipes/7" (some (Json.obj [("id", .num 7)]))) :=
  ⟨rfl, (idPresence_determines_verb netOkEmpty).1 _ rfl, rfl,
    (idPresence_determines_verb netOkEmpty).2.2.2.2.2 _ rfl⟩

/-- C5: with no file selected the knowledge upload emits exactly the local
error Select a file before ingestion. and performs no other effect — in
particular it issues no request and changes no other state; and with a
missing or empty composer context, generateDraft likewise emits exactly its
local error and performs no other effect. -/
theorem localValidation_blocks_network (net : Net) (ei vd : Bool) :
    uploadKnowledgeSource net none ei vd =
      [.emitError "Select a file before ingestion."] ∧
    generateDraft net none = [.emitError "Please enter order details first."] ∧
    (∀ d : EditingDraft, d.context = "" →
      generateDraft net (some d) = [.emitError "Please enter order details first."]) := by
  refine ⟨rfl, rfl, ?_⟩
  intro d hd
  simp [generateDraft, hd]

/-- C5 witness: the empty-context draft is rejected locally. -/
theorem localValidation_blocks_network_witness :
    (EditingDraft.mk Json.null "").context = "" ∧
    generateDraft netOkEmpty (some (EditingDraft.mk Json.null "")) =
      [.emitError "Please enter order details first."] :=
  ⟨rfl, (localValidation_blocks_network netOkEmpty false false).2.2 _ rfl⟩

/-- C10: the identifier saveInventoryCounts referenced by the SAVE COUNTS
control is bound neither at module scope nor in the App component body, so
whenever counting mode is active, evaluating the control throws a
ReferenceError instead of producing a handler — no handler exists to issue
any request, so the entered counts are never transmitted. -/
theorem saveInventoryCounts_unbound :
    "saveInventoryCounts" ∉ appScopeIdentifiers ∧
    (∀ mode : Bool, mode = true →
      renderInventoryActionButton mode =
        .error "ReferenceError: saveInventoryCounts is not defined") := by
  refine ⟨by decide, ?_⟩
  intro mode h
  subst h
  rfl

/-- C10 witness: in counting mode the control evaluates to the
ReferenceError. -/
theorem saveInventoryCounts_unbound_witness :
    renderInventoryActionButton true =
      .error "ReferenceError: saveInventoryCounts is not defined" :=
  saveInventoryCounts_unbound.2 true rfl

theorem flashStep_preserves (s : FlashState) (e : Ev)
    (h : flashExclusive s) : flashExclusive (flashStep s e) := by
  cases e <;> simp [flashStep, flashExclusive] <;> exact h

/-- C9: the shared notice and error slots are mutually exclusive in every
state reachable from mount by any trace of App effects, because emitting an
error sets the error and clears the notice, emitting a notice sets the
notice and clears the error, and clearFlash clears both; and both emissions
are last-write-wins: an emission at the end of any trace leaves exactly its
own message, whatever was there before. -/
theorem flash_mutual_exclusion :
    (∀ evs : List Ev, flashExclusive (flashRun flashInit evs)) ∧
    (∀ (s : FlashState) (evs : List Ev) (m : String),
      flashRun s (evs ++ [.emitError m]) = FlashState.mk m "") ∧
    (∀ (s : FlashState) (evs : List Ev) (m : String),
      flashRun s (evs ++ [.emitNotice m]) = FlashState.mk "" m) := by
  refine ⟨?_, ?_, ?_⟩
  · intro evs
    have key : ∀ (l : List Ev) (s : FlashState),
        flashExclusive s → flashExclusive (flashRun s l) := by
      intro l
      induction l with
      | nil => exact fun s h => h
      | cons e t ih => exact fun s h => ih _ (flashStep_preserves s e h)
    exact key evs flashInit (Or.inl rfl)
  · intro s evs m
    simp [flashRun, List.foldl_append, flashStep]
  · intro s evs m
    simp [flashRun, List.foldl_append, flashStep]

/-- C6 counterexample: with the vendors tab active (whose primary data set
is the vendor list, as the tab-switch effect shows), a polling tick
re-fetches status only — it issues no request to the vendors endpoint, so
the active tab primary data set is not re-fetched on every tick. -/
theorem polling_skips_vendors_tab :
    tabSwitchEffect netOkEmpty "vendors" .null =
      [.call "GET" "/api/vendors" none, .setState "vendors"] ∧
    pollTick netOkEmpty "vendors" "all" =
      [.call "GET" "/api/status" none, .setState "statusData"] ∧
    callCount (pollTick netOkEmpty "vendors" "all") "GET" "/api/vendors" = 0 :=
  ⟨rfl, rfl, rfl⟩

/-- C6 as amended: every polling tick re-fetches status first; on the
overview tab it additionally re-fetches logs, on the autonomy tab autonomy
status and logs; on every other tab the tick re-fetches status and nothing
else; the subscription is a 5000 ms interval and its teardown clears it, so
no tick fires afterwards. -/
theorem polling_cadence (net : Net) (lf : String) :
    (∀ tab, (pollTick net tab lf).take 1 = [.call "GET" "/api/status" none]) ∧
    pollTick net "overview" lf = loadStatus net ++ loadLogs net (some lf) lf ∧
    pollTick net "autonomy" lf =
      loadStatus net ++ loadAutonomyStatus net ++ loadAutonomyLogs net ∧
    (∀ tab, tab ≠ "overview" → tab ≠ "autonomy" →
      pollTick net tab lf = loadStatus net) ∧
    setupPolling.intervalMs = 5000 ∧
    (∀ s, tickFires (teardownPolling s) = false) := by
  refine ⟨?_, ?_, ?_, ?_, rfl, fun s => rfl⟩
  · intro tab
    simp [pollTick, loadStatus, List.take]
  · simp +decide [pollTick]
  · simp +decide [pollTick, List.append_assoc]
  · intro tab h1 h2
    simp [pollTick, h1, h2]

/-- C6 amended witness: on the settings tab a tick runs the status reload
alone. -/
theorem polling_cadence_witness :
    pollTick netOkEmpty "settings" "all" = loadStatus netOkEmpty :=
  (polling_cadence netOkEmpty "all").2.2.2.1 "settings" (by decide) (by decide)

/-- C8: every list-mutating action whose server call succeeds continues
with the full refetch of the affected list — the load trace follows the
mutation request, and each load begins with the GET of the whole list; the
local list state is touched by nothing but those loads (the only setState on
a list slot in any mutation trace is the one inside its load).  The
vendor-item handlers are stated with an active vendor, the only state from
which the items modal, their sole caller, renders. -/
theorem mutation_refetches_list (net : Net) :
    (∀ sid a p, net "POST" ("/api/knowledge/" ++ sid ++ "/toggle") = .ok p →
      toggleKnowledgeSource net sid a =
        .call "POST" ("/api/knowledge/" ++ sid ++ "/toggle")
            (some (.obj [("active", .bool a)])) ::
          loadKnowledge net ++
            [.emitNotice ("Source " ++ (if a then "enabled" else "disabled") ++ ".")]) ∧
    (∀ sid p, net "DELETE" ("/api/knowledge/" ++ sid) = .ok p →
      deleteKnowledgeSource net sid =
        .call "DELETE" ("/api/knowledge/" ++ sid) none ::
          loadKnowledge net ++ [.emitNotice "Source removed successfully."]) ∧
    (∀ fname ei vd p, net "POST" "/api/knowledge/upload" = .ok p →
      uploadKnowledgeSource net (some fname) ei vd =
        .call "POST" "/api/knowledge/upload" none ::
          .emitNotice ("Ingested " ++ jsTemplate (p.lookup "num_chunks") ++
            " chunks from " ++ jsTemplate (p.lookup "source_title") ++ ".") ::
          .setState "uploadFile" :: loadKnowledge net) ∧
    (∀ v p, net (if truthy (jsFieldD v "id") then "PUT" else "POST")
        (if truthy (jsFieldD v "id")
         then "/api/vendors/" ++ jsTemplate (v.lookup "id")
         else "/api/vendors") = .ok p →
      saveVendor net v =
        .call (if truthy (jsFieldD v "id") then "PUT" else "POST")
            (if truthy (jsFieldD v "id")
             then "/api/vendors/" ++ jsTemplate (v.lookup "id")
             else "/api/vendors") (some v) ::
          loadVendors net ++
            [.setState "editingVendor",
             .emitNotice ("Vendor " ++
               (if truthy (jsFieldD v "id") then "updated" else "created") ++ ".")]) ∧
    (∀ vid p, net "DELETE" ("/api/vendors/" ++ vid) = .ok p →
      deleteVendor net true vid =
        .call "DELETE" ("/api/vendors/" ++ vid) none ::
          loadVendors net ++ [.emitNotice "Vendor deleted."]) ∧
    (∀ vid item p, net (if truthy (jsFieldD item "id") then "PUT" else "POST")
        (if truthy (jsFieldD item "id")
         then "/api/vendors/items/" ++ jsTemplate (item.lookup "id")
         else "/api/vendors/" ++ vid ++ "/items") = .ok p →
      saveVendorItem net (some vid) item =
        .call (if truthy (jsFieldD item "id") then "PUT" else "POST")
            (if truthy (jsFieldD item "id")
             then "/api/vendors/items/" ++ jsTemplate (item.lookup "id")
             else "/api/vendors/" ++ vid ++ "/items") (some item) ::
          loadVendorItems net vid ++
            [.setState "editingItem",
             .emitNotice ("Item " ++
               (if truthy (jsFieldD item "id") then "updated" else "added") ++ ".")]) ∧
    (∀ vid iid p, net "DELETE" ("/api/vendors/items/" ++ iid) = .ok p →
      deleteVendorItem net true (some vid) iid =
        .call "DELETE" ("/api/vendors/items/" ++ iid) none ::
          loadVendorItems net vid ++ [.emitNotice "Item deleted."]) ∧
    (∀ r p, net (if truthy (jsFieldD r "id") then "PUT" else "POST")
        (if truthy (jsFieldD r "id")
         then "/api/recipes/" ++ jsTemplate (r.lookup "id")
         else "/api/recipes") = .ok p →
      saveRecipe net r =
        .call (if truthy (jsFieldD r "id") then "PUT" else "POST")
            (if truthy (jsFieldD r "id")
             then "/api/recipes/" ++ jsTemplate (r.lookup "id")
             else "/api/recipes") (some r) ::
          loadRecipes net ++
            [.setState "editingRecipe",
             .emitNotice ("Recipe " ++
               (if truthy (jsFieldD r "id") then "updated" else "created") ++ ".")]) ∧
    (∀ rid p, net "DELETE" ("/api/recipes/" ++ rid) = .ok p →
      deleteRecipe net true rid =
        .call "DELETE" ("/api/recipes/" ++ rid) none ::
          loadRecipes net ++ [.emitNotice "Recipe deleted."]) ∧
    (loadKnowledge net).take 1 = [.call "GET" "/api/knowledge" none] ∧
    (loadVendors net).take 1 = [.call "GET" "/api/vendors" none] ∧
    (∀ vid, (loadVendorItems net vid).take 1 =
      [.call "GET" ("/api/vendors/" ++ vid ++ "/items") none]) ∧
    (loadRecipes net).take 1 = [.call "GET" "/api/recipes" none] := by
  refine ⟨?_, ?_, ?_, ?_, ?_, ?_, ?_, ?_, ?_, rfl, rfl, fun vid => rfl, rfl⟩
  · intro sid a p h
    simp [toggleKnowledgeSource, h]
  · intro sid p h
    simp [deleteKnowledgeSource, h]
  · intro fname ei vd p h
    simp [uploadKnowledgeSource, h]
  · intro v p h
    cases hid : truthy (jsFieldD v "id") <;> simp [hid] at h <;>
      simp [saveVendor, hid, h]
  · intro vid p h
    simp [deleteVendor, h]
  · intro vid item p h
    cases hid : truthy (jsFieldD item "id") <;> simp [hid] at h <;>
      simp [saveVendorItem, hid, h]
  · intro vid iid p h
    simp [deleteVendorItem, h]
  · intro r p h
    cases hid : truthy (jsFieldD r "id") <;> simp [hid] at h <;>
      simp [saveRecipe, hid, h]
  · intro rid p h
    simp [deleteRecipe, h]

/-- C8 witness: enabling knowledge source s1 on the all-ok oracle refetches
the whole knowledge list right after the toggle succeeds. -/
theorem mutation_refetches_list_witness :
    netOkEmpty "POST" "/api/knowledge/s1/toggle" = .ok (.obj []) ∧
    toggleKnowledgeSource netOkEmpty "s1" true =
      [.call "POST" "/api/knowledge/s1/toggle" (some (.obj [("active", .bool true)])),
       .call "GET" "/api/knowledge" none, .setState "knowledge",
       .emitNotice "Source enabled."] :=
  ⟨rfl, (mutation_refetches_list netOkEmpty).1 "s1" true (.obj []) rfl⟩

/-- C7 counterexample: a non-2xx JSON response whose body is the empty
object carries neither a detail nor a message field, yet apiRequest throws
the message Request failed — a string that is not any field of the body —
so the thrown message is not always the detail or message field verbatim. -/
theorem apiRequest_fallback_counterexample :
    apiRequest (HttpResponse.mk false "application/json" (some (.obj [])) "") =
      .error "Request failed" ∧
    (Json.obj []).lookup "detail" = none ∧
    (Json.obj []).lookup "message" = none :=
  ⟨rfl, rfl, rfl⟩

/-- C7 as amended: for a non-2xx response whose content type includes
application/json and whose body parses as an object, the thrown message is
the string coercion of the detail field if that is truthy, else of the
message field if that is truthy, else the fallback Request failed; a body
parsing as a bare JSON string is thrown verbatim; for a non-JSON content
type the raw response text is thrown verbatim.  A 2xx response returns the
parsed JSON payload (raw text for non-JSON) and throws nothing; a JSON
content type whose body does not parse is the one exception, propagating
the parse rejection of response.json(). -/
theorem apiRequest_error_convention (r : HttpResponse) :
    (∀ j, r.ok = false → strContains r.contentType "application/json" = true →
      r.jsonBody = some j → truthy (jsFieldD j "detail") = true →
      apiRequest r = .error (jsToString (jsFieldD j "detail"))) ∧
    (∀ fs, r.ok = false → strContains r.contentType "application/json" = true →
      r.jsonBody = some (.obj fs) →
      truthy (jsFieldD (Json.obj fs) "detail") = false →
      truthy (jsFieldD (Json.obj fs) "message") = true →
      apiRequest r = .error (jsToString (jsFieldD (Json.obj fs) "message"))) ∧
    (∀ fs, r.ok = false → strContains r.contentType "application/json" = true →
      r.jsonBody = some (.obj fs) →
      truthy (jsFieldD (Json.obj fs) "detail") = false →
      truthy (jsFieldD (Json.obj fs) "message") = false →
      apiRequest r = .error "Request failed") ∧
    (∀ s, r.ok = false → strContains r.contentType "application/json" = true →
      r.jsonBody = some (.str s) → apiRequest r = .error s) ∧
    (r.ok = false → strContains r.contentType "application/json" = false →
      apiRequest r = .error r.textBody) ∧
    (∀ j, r.ok = true → strContains r.contentType "application/json" = true →
      r.jsonBody = some j → apiRequest r = .ok (.json j)) ∧
    (r.ok = true → strContains r.contentType "application/json" = false →
      apiRequest r = .ok (.text r.textBody)) ∧
    (strContains r.contentType "application/json" = true → r.jsonBody = none →
      apiRequest r = .error "Unexpected end of JSON input") := by
  refine ⟨?_, ?_, ?_, ?_, ?_, ?_, ?_, ?_⟩
  · intro j hok hct hbody hdet
    cases j <;> simp [jsFieldD, Json.lookup, truthy] at hdet <;>
      simp [apiRequest, hok, hct, hbody, errDetail, jsOr, hdet] <;>
      simp [jsFieldD, Json.lookup, truthy, hdet]
  · intro fs hok hct hbody hdet hmsg
    simp [apiRequest, hok, hct, hbody, errDetail, jsOr, hdet, hmsg]
  · intro fs hok hct hbody hdet hmsg
    simp [apiRequest, hok, hct, hbody, errDetail, jsOr, hdet, hmsg, jsToString]
  · intro s hok hct hbody
    simp [apiRequest, hok, hct, hbody, errDetail]
  · intro hok hct
    simp [apiRequest, hok, hct, errDetail]
  · intro j hok hct hbody
    simp [apiRequest, hok, hct, hbody]
  · intro hok hct
    simp [apiRequest, hok, hct]
  · intro hct hbody
    simp [apiRequest, hct, hbody]

/-- C7 amended witness: a 500 response with body detail Model missing is
thrown with exactly that message. -/
theorem apiRequest_error_convention_witness :
    apiRequest (HttpResponse.mk false "application/json"
        (some (.obj [("detail", .str "Model missing")])) "") =
      .error "Model missing" :=
  (apiRequest_error_convention (HttpResponse.mk false "application/json"
      (some (.obj [("detail", .str "Model missing")])) "")).1
    (.obj [("detail", .str "Model missing")]) rfl rfl rfl rfl

/-! Lemmas about JSON property reads through property writes, towards the
frame property of saveSettingsBodyD. -/

theorem findField_setField_self (fs : List (String × Json)) (k : String) (v : Json) :
    findField (setField fs k v) k = some v := by
  induction fs with
  | nil => simp [setField, findField]
  | cons hd tl ih =>
    obtain ⟨k0, w⟩ := hd
    by_cases h : k0 = k <;> simp [setField, findField, h, ih]

theorem findField_setField_ne (fs : List (String × Json)) (k : String) (v : Json)
    (k' : String) (h : k' ≠ k) :
    findField (setField fs k v) k' = findField fs k' := by
  induction fs with
  | nil => simp [setField, findField, Ne.symm h]
  | cons hd tl ih =>
    obtain ⟨k0, w⟩ := hd
    by_cases h0 : k0 = k <;> simp [setField, findField, h0, ih, Ne.symm h]

theorem lookup_setPathD_ne (j : Json) (k : String) (p : List String) (v : Json)
    (k' : String) (h : k' ≠ k) :
    (j.setPathD (k :: p) v).lookup k' = j.lookup k' := by
  cases j <;> try rfl
  rename_i fs
  cases p with
  | nil => simp [Json.setPathD, Json.lookup, findField_setField_ne fs k v k' h]
  | cons a ps =>
    cases hf : findField fs k <;>
      simp [Json.setPathD, Json.lookup, hf, findField_setField_ne fs k _ k' h]

theorem lookup_setPathD_deep (j : Json) (k a : String) (ps : List String) (v : Json) :
    (j.setPathD (k :: a :: ps) v).lookup k =
      (j.lookup k).map (fun w => w.setPathD (a :: ps) v) := by
  cases j <;> try rfl
  rename_i fs
  cases hf : findField fs k <;>
    simp [Json.setPathD, Json.lookup, hf, findField_setField_self]

theorem lookup_setPathD_single (j : Json) (k : String) (v : Json) :
    (j.setPathD [k] v).lookup k = if isObjB j then some v else none := by
  cases j <;> simp [Json.setPathD, Json.lookup, isObjB, findField_setField_self]

theorem jsOrEmptyObj_lookup (x : Option Json) (k : String) :
    (jsOrEmptyObj x).lookup k = x.bind (fun v => v.lookup k) := by
  cases x with
  | none => rfl
  | some v =>
    cases v <;> simp [jsOrEmptyObj, truthy, Json.lookup, findField]
    case bool b => cases b <;> simp [Json.lookup, findField]
    case num q => by_cases hq : q = 0 <;> simp [hq, Json.lookup, findField]
    case str s => by_cases hs : s = "" <;> simp [hs, Json.lookup, findField]

theorem jsOrEmptyObj_nonObj_bind (x : Option Json) (k : String)
    (h : isObjB (jsOrEmptyObj x) = false) :
    x.bind (fun w => w.lookup k) = none := by
  cases x with
  | none => simp [jsOrEmptyObj, isObjB] at h
  | some w => cases w <;> simp_all [jsOrEmptyObj, isObjB, truthy, Json.lookup]

theorem lookupPath_cons (j : Json) (a : String) (ps : List String) :
    Json.lookupPath j (a :: ps) = (j.lookup a).bind (fun w => w.lookupPath ps) := by
  cases h : j.lookup a <;> simp [Json.lookupPath, h]

theorem lookupPath_single (j : Json) (a : String) : j.lookupPath [a] = j.lookup a := by
  cases h : j.lookup a <;> simp [Json.lookupPath, h]

theorem lookupPath_nil (j : Json) : j.lookupPath [] = some j := rfl

theorem isObjB_setPathD (j : Json) (k : String) (rest : List String) (v : Json) :
    isObjB (j.setPathD (k :: rest) v) = isObjB j := by
  cases j <;> try rfl
  rename_i fs
  cases rest with
  | nil => rfl
  | cons a ps => cases hf : findField fs k <;> simp [Json.setPathD, hf, isObjB]

theorem ollamaPart_lookup_ne (t : String → Json) (d : ConfigDraft) (o0 : Option Json)
    (k : String) (h1 : k ≠ "model") (h2 : k ≠ "temperature") (h3 : k ≠ "max_tokens") :
    (ollamaPart t d o0).lookup k = o0.bind (fun w => w.lookup k) := by
  simp [ollamaPart, lookup_setPathD_ne, h1, h2, h3, jsOrEmptyObj_lookup]

theorem ragPart_lookup_ne (t : String → Json) (d : ConfigDraft) (r0 : Option Json)
    (k : String) (h1 : k ≠ "top_k") (h2 : k ≠ "enabled") (h3 : k ≠ "ocr")
    (h4 : k ≠ "image_processing") (h5 : k ≠ "vision") :
    (ragPart t d r0).lookup k = r0.bind (fun w => w.lookup k) := by
  simp [ragPart, lookup_setPathD_ne, h1, h2, h3, h4, h5, jsOrEmptyObj_lookup]

theorem ragPart_lookupPath_ocr (t : String → Json) (d : ConfigDraft)
    (r0 : Option Json) (k : String) (h : k ≠ "enabled") :
    (ragPart t d r0).lookupPath ["ocr", k] =
      r0.bind (fun w => (w.lookup "ocr").bind (fun u => u.lookup k)) := by
  by_cases hobj : isObjB (jsOrEmptyObj r0) = true
  · simp [ragPart, lookupPath_cons, lookupPath_single, lookupPath_nil,
      lookup_setPathD_ne, lookup_setPathD_deep, lookup_setPathD_single,
      isObjB_setPathD, hobj, h, jsOrEmptyObj_lookup, Option.bind_assoc]
  · have hn := jsOrEmptyObj_nonObj_bind r0 "ocr" (by simpa using hobj)
    simp [ragPart, lookupPath_cons, lookupPath_single, lookupPath_nil,
      lookup_setPathD_ne, lookup_setPathD_deep, lookup_setPathD_single,
      isObjB_setPathD, hobj, ← Option.bind_assoc, hn]

theorem ragPart_lookupPath_image (t : String → Json) (d : ConfigDraft)
    (r0 : Option Json) (k : String) (h : k ≠ "extract_images") :
    (ragPart t d r0).lookupPath ["image_processing", k] =
      r0.bind (fun w => (w.lookup "image_processing").bind (fun u => u.lookup k)) := by
  by_cases hobj : isObjB (jsOrEmptyObj r0) = true
  · simp [ragPart, lookupPath_cons, lookupPath_single, lookupPath_nil,
      lookup_setPathD_ne, lookup_setPathD_deep, lookup_setPathD_single,
      isObjB_setPathD, hobj, h, jsOrEmptyObj_lookup, Option.bind_assoc]
  · have hn := jsOrEmptyObj_nonObj_bind r0 "image_processing" (by simpa using hobj)
    simp [ragPart, lookupPath_cons, lookupPath_single, lookupPath_nil,
      lookup_setPathD_ne, lookup_setPathD_deep, lookup_setPathD_single,
      isObjB_setPathD, hobj, ← Option.bind_assoc, hn]

theorem ragPart_lookupPath_vision (t : String → Json) (d : ConfigDraft)
    (r0 : Option Json) (k : String) (h1 : k ≠ "enabled") (h2 : k ≠ "model") :
    (ragPart t d r0).lookupPath ["vision", k] =
      r0.bind (fun w => (w.lookup "vision").bind (fun u => u.lookup k)) := by
  by_cases hobj : isObjB (jsOrEmptyObj r0) = true
  · simp [ragPart, lookupPath_cons, lookupPath_single, lookupPath_nil,
      lookup_setPathD_ne, lookup_setPathD_deep, lookup_setPathD_single,
      isObjB_setPathD, hobj, h1, h2, jsOrEmptyObj_lookup, Option.bind_assoc]
  · have hn := jsOrEmptyObj_nonObj_bind r0 "vision" (by simpa using hobj)
    simp [ragPart, lookupPath_cons, lookupPath_single, lookupPath_nil,
      lookup_setPathD_ne, lookup_setPathD_deep, lookup_setPathD_single,
      isObjB_setPathD, hobj, ← Option.bind_assoc, hn]

theorem lookup_obj (fs : List (String × Json)) (k : String) :
    (Json.obj fs).lookup k = findField fs k := rfl

theorem isObjB_obj (fs : List (String × Json)) : isObjB (Json.obj fs) = true := rfl

theorem saveSettingsBodyD_nonObj (t : String → Json) (d : ConfigDraft) (j : Json)
    (h : isObjB j = false) : saveSettingsBodyD t j d = j := by
  cases j <;> simp_all [saveSettingsBodyD, deepClone, Json.setPathD, isObjB]

theorem saveSettingsBodyD_lookup_other (t : String → Json) (d : ConfigDraft)
    (fs : List (String × Json)) (k : String) (h1 : k ≠ "ollama") (h2 : k ≠ "rag") :
    (saveSettingsBodyD t (.obj fs) d).lookup k = findField fs k := by
  simp [saveSettingsBodyD, deepClone, lookup_setPathD_ne, h1, h2, lookup_obj]

theorem saveSettingsBodyD_lookup_ollama (t : String → Json) (d : ConfigDraft)
    (fs : List (String × Json)) :
    (saveSettingsBodyD t (.obj fs) d).lookup "ollama" =
      some (ollamaPart t d (findField fs "ollama")) := by
  simp [saveSettingsBodyD, deepClone, ollamaPart, lookup_setPathD_ne,
    lookup_setPathD_deep, lookup_setPathD_single, lookupPath_cons, lookupPath_single,
    lookupPath_nil, isObjB_setPathD, isObjB_obj, lookup_obj]

theorem saveSettingsBodyD_lookup_rag (t : String → Json) (d : ConfigDraft)
    (fs : List (String × Json)) :
    (saveSettingsBodyD t (.obj fs) d).lookup "rag" =
      some (ragPart t d (findField fs "rag")) := by
  simp [saveSettingsBodyD, deepClone, ragPart, lookup_setPathD_ne,
    lookup_setPathD_deep, lookup_setPathD_single, lookupPath_cons, lookupPath_single,
    lookupPath_nil, isObjB_setPathD, isObjB_obj, lookup_obj]

theorem saveSettingsBodyD_frame (toNum : String → Json) (cfg : Json)
    (d : ConfigDraft) :
    (∀ k, k ≠ "ollama" → k ≠ "rag" →
      (saveSettingsBodyD toNum cfg d).lookup k = cfg.lookup k) ∧
    (∀ k, k ≠ "model" → k ≠ "temperature" → k ≠ "max_tokens" →
      (saveSettingsBodyD toNum cfg d).lookupPath ["ollama", k] =
        cfg.lookupPath ["ollama", k]) ∧
    (∀ k, k ≠ "top_k" → k ≠ "enabled" → k ≠ "ocr" → k ≠ "image_processing" →
        k ≠ "vision" →
      (saveSettingsBodyD toNum cfg d).lookupPath ["rag", k] =
        cfg.lookupPath ["rag", k]) ∧
    (∀ k, k ≠ "enabled" →
      (saveSettingsBodyD toNum cfg d).lookupPath ["rag", "ocr", k] =
        cfg.lookupPath ["rag", "ocr", k]) ∧
    (∀ k, k ≠ "extract_images" →
      (saveSettingsBodyD toNum cfg d).lookupPath ["rag", "image_processing", k] =
        cfg.lookupPath ["rag", "image_processing", k]) ∧
    (∀ k, k ≠ "enabled" → k ≠ "model" →
      (saveSettingsBodyD toNum cfg d).lookupPath ["rag", "vision", k] =
        cfg.lookupPath ["rag", "vision", k]) := by
  cases cfg
  case obj fs =>
    refine ⟨?_, ?_, ?_, ?_, ?_, ?_⟩
    · intro k h1 h2
      rw [saveSettingsBodyD_lookup_other toNum d fs k h1 h2, lookup_obj]
    · intro k h1 h2 h3
      simp [lookupPath_cons, lookupPath_single, saveSettingsBodyD_lookup_ollama,
        ollamaPart_lookup_ne toNum d _ k h1 h2 h3, lookup_obj, Option.bind_assoc]
    · intro k h1 h2 h3 h4 h5
      simp [lookupPath_cons, lookupPath_single, saveSettingsBodyD_lookup_rag,
        ragPart_lookup_ne toNum d _ k h1 h2 h3 h4 h5, lookup_obj, Option.bind_assoc]
    · intro k h
      have hstep : (saveSettingsBodyD toNum (Json.obj fs) d).lookupPath
            ["rag", "ocr", k] =
          (ragPart toNum d (findField fs "rag")).lookupPath ["ocr", k] := by
        rw [lookupPath_cons, saveSettingsBodyD_lookup_rag]
        rfl
      rw [hstep, ragPart_lookupPath_ocr toNum d _ k h]
      simp [lookupPath_cons, lookupPath_single, lookupPath_nil, lookup_obj]
    · intro k h
      have hstep : (saveSettingsBodyD toNum (Json.obj fs) d).lookupPath
            ["rag", "image_processing", k] =
          (ragPart toNum d (findField fs "rag")).lookupPath ["image_processing", k] := by
        rw [lookupPath_cons, saveSettingsBodyD_lookup_rag]
        rfl
      rw [hstep, ragPart_lookupPath_image toNum d _ k h]
      simp [lookupPath_cons, lookupPath_single, lookupPath_nil, lookup_obj]
    · intro k h1 h2
      have hstep : (saveSettingsBodyD toNum (Json.obj fs) d).lookupPath
            ["rag", "vision", k] =
          (ragPart toNum d (findField fs "rag")).lookupPath ["vision", k] := by
        rw [lookupPath_cons, saveSettingsBodyD_lookup_rag]
        rfl
      rw [hstep, ragPart_lookupPath_vision toNum d _ k h1 h2]
      simp [lookupPath_cons, lookupPath_single, lookupPath_nil, lookup_obj]
  all_goals {
    refine ⟨fun k h1 h2 => ?_, fun k h1 h2 h3 => ?_, fun k h1 h2 h3 h4 h5 => ?_,
      fun k h => ?_, fun k h => ?_, fun k h1 h2 => ?_⟩ <;>
      (rw [saveSettingsBodyD_nonObj] <;> rfl) }

theorem except_bind_ok {ε α β : Type} (x : Except ε α) (f : α → Except ε β)
    (b : β) : (x >>= f = .ok b) ↔ ∃ a, x = .ok a ∧ f a = .ok b := by
  cases x <;> simp [Bind.bind, Except.bind]

theorem setPath_ok_eq (p : List String) :
    ∀ (j v w : Json), Json.setPath j p v = .ok w → Json.setPathD j p v = w := by
  induction p with
  | nil =>
    intro j v w h
    simp [Json.setPath] at h
    simpa [Json.setPathD] using h
  | cons key rest ih =>
    intro j v w h
    cases j with
    | obj fs =>
      cases rest with
      | nil =>
        simp [Json.setPath] at h
        simpa [Json.setPathD] using h
      | cons r rs =>
        rw [Json.setPath.eq_def] at h
        simp only [] at h
        cases hf : findField fs key with
        | none => simp [hf] at h
        | some u =>
          simp only [hf] at h
          cases hrec : Json.setPath u (r :: rs) v with
          | error e => rw [hrec] at h; exact absurd h (by simp)
          | ok w2 =>
            rw [hrec] at h
            simp only [Except.ok.injEq] at h
            rw [Json.setPathD.eq_def]
            simp only [hf]
            rw [ih u v w2 hrec]
            exact h
    | arr elems =>
      simp [Json.setPath] at h
      simpa [Json.setPathD] using h
    | null => simp [Json.setPath] at h
    | bool b2 => simp [Json.setPath] at h
    | num q => simp [Json.setPath] at h
    | str s2 => simp [Json.setPath] at h

theorem saveSettingsBody_ok_val (toNum : String → Json) (cfg : Json)
    (d : ConfigDraft) (b : Json) (h : saveSettingsBody toNum cfg d = .ok b) :
    b = saveSettingsBodyD toNum cfg d := by
  simp only [saveSettingsBody, deepClone, except_bind_ok, pure, Except.pure,
    Except.ok.injEq] at h
  obtain ⟨n1, h1, n2, h2, n3, h3, n4, h4, n5, h5, n6, h6, n7, h7, n8, h8, n9,
    h9, n10, h10, n11, h11, n12, h12, n13, h13, n14, h14, hb⟩ := h
  subst hb
  simp only [saveSettingsBodyD, deepClone]
  rw [setPath_ok_eq _ _ _ _ h1, setPath_ok_eq _ _ _ _ h2, setPath_ok_eq _ _ _ _ h3,
    setPath_ok_eq _ _ _ _ h4, setPath_ok_eq _ _ _ _ h5, setPath_ok_eq _ _ _ _ h6,
    setPath_ok_eq _ _ _ _ h7, setPath_ok_eq _ _ _ _ h8, setPath_ok_eq _ _ _ _ h9,
    setPath_ok_eq _ _ _ _ h10, setPath_ok_eq _ _ _ _ h11, setPath_ok_eq _ _ _ _ h12,
    setPath_ok_eq _ _ _ _ h13, setPath_ok_eq _ _ _ _ h14]

/-- C2 counterexample: for a configData holding a truthy primitive at a
rewritten container — here ollama is the string v1 — together with an
unknown top-level key, the strict-mode write next.ollama.model throws a
TypeError before the try block: the rebuild errors and saveSettings
performs no effect at all, so no PUT body carrying the unknown key is ever
built or sent, against the claim scope of every configData object. -/
theorem saveSettings_throws_counterexample :
    saveSettingsBody (fun _ => .num 0)
        (.obj [("ollama", .str "v1"), ("custom", .bool true)])
        (ConfigDraft.mk "llama" "0.7" "1000" "3" true true false false "") =
      .error "TypeError" ∧
    saveSettings (fun _ => .num 0) netOkEmpty
        (some (.obj [("ollama", .str "v1"), ("custom", .bool true)]))
        (some (ConfigDraft.mk "llama" "0.7" "1000" "3" true true false false "")) =
      [] ∧
    (Json.obj [("ollama", .str "v1"), ("custom", .bool true)]).lookup "custom" =
      some (.bool true) :=
  ⟨rfl, rfl, rfl⟩

/-- C2 as amended: whenever the mutation chain succeeds — which it does
unless one of ollama, rag, rag.ocr, rag.image_processing or rag.vision
holds a truthy primitive — the PUT body is the deep clone of configData
with at most the nine draft-backed fields rewritten: every top-level key
other than ollama and rag keeps its entire subtree, every key under ollama
other than model, temperature and max_tokens is unchanged, every key under
rag other than top_k, enabled and the three rewritten containers is
unchanged, and inside rag.ocr, rag.image_processing and rag.vision every
key other than the overwritten ones is unchanged — for every draft and
every string-to-number coercion, and the PUT to /api/config carries exactly
this body, so no unknown key is dropped.  When the chain instead throws,
the TypeError escapes the handler before the try block and saveSettings
performs no effect: no PUT is issued. -/
theorem saveSettings_preserves_unknown_keys (toNum : String → Json) (net : Net)
    (cfg : Json) (d : ConfigDraft) :
    (∀ body, saveSettingsBody toNum cfg d = .ok body →
      (∀ k, k ≠ "ollama" → k ≠ "rag" → body.lookup k = cfg.lookup k) ∧
      (∀ k, k ≠ "model" → k ≠ "temperature" → k ≠ "max_tokens" →
        body.lookupPath ["ollama", k] = cfg.lookupPath ["ollama", k]) ∧
      (∀ k, k ≠ "top_k" → k ≠ "enabled" → k ≠ "ocr" → k ≠ "image_processing" →
          k ≠ "vision" →
        body.lookupPath ["rag", k] = cfg.lookupPath ["rag", k]) ∧
      (∀ k, k ≠ "enabled" →
        body.lookupPath ["rag", "ocr", k] = cfg.lookupPath ["rag", "ocr", k]) ∧
      (∀ k, k ≠ "extract_images" →
        body.lookupPath ["rag", "image_processing", k] =
          cfg.lookupPath ["rag", "image_processing", k]) ∧
      (∀ k, k ≠ "enabled" → k ≠ "model" →
        body.lookupPath ["rag", "vision", k] =
          cfg.lookupPath ["rag", "vision", k]) ∧
      (saveSettings toNum net (some cfg) (some d)).take 1 =
        [.call "PUT" "/api/config" (some body)]) ∧
    (∀ e, saveSettingsBody toNum cfg d = .error e →
      saveSettings toNum net (some cfg) (some d) = []) := by
  constructor
  · intro body hok
    obtain rfl := saveSettingsBody_ok_val toNum cfg d body hok
    have hf := saveSettingsBodyD_frame toNum cfg d
    refine ⟨hf.1, hf.2.1, hf.2.2.1, hf.2.2.2.1, hf.2.2.2.2.1, hf.2.2.2.2.2, ?_⟩
    simp [saveSettings, hok]
  · intro e herr
    simp [saveSettings, herr]

/-- C2 amended witness: a config with an unknown top-level key, an unknown
key under ollama and an unknown key under rag.ocr rebuilds successfully and
keeps all three in the PUT body. -/
theorem saveSettings_preserves_unknown_keys_witness :
    saveSettingsBody (fun _ => .num 0)
        (.obj [("custom", .str "keepme"),
               ("ollama", .obj [("model", .str "m"), ("gpu_layers", .num 33)]),
               ("rag", .obj [("ocr", .obj [("lang", .str "en")])])])
        (ConfigDraft.mk "llama" "0.7" "1000" "3" true true false false "") =
      .ok (saveSettingsBodyD (fun _ => .num 0)
        (.obj [("custom", .str "keepme"),
               ("ollama", .obj [("model", .str "m"), ("gpu_layers", .num 33)]),
               ("rag", .obj [("ocr", .obj [("lang", .str "en")])])])
        (ConfigDraft.mk "llama" "0.7" "1000" "3" true true false false "")) ∧
    (saveSettingsBodyD (fun _ => .num 0)
        (.obj [("custom", .str "keepme"),
               ("ollama", .obj [("model", .str "m"), ("gpu_layers", .num 33)]),
               ("rag", .obj [("ocr", .obj [("lang", .str "en")])])])
        (ConfigDraft.mk "llama" "0.7" "1000" "3" true true false false "")).lookup
      "custom" = some (.str "keepme") ∧
    (saveSettingsBodyD (fun _ => .num 0)
        (.obj [("custom", .str "keepme"),
               ("ollama", .obj [("model", .str "m"), ("gpu_layers", .num 33)]),
               ("rag", .obj [("ocr", .obj [("lang", .str "en")])])])
        (ConfigDraft.mk "llama" "0.7" "1000" "3" true true false false "")).lookupPath
      ["ollama", "gpu_layers"] = some (.num 33) ∧
    (saveSettingsBodyD (fun _ => .num 0)
        (.obj [("custom", .str "keepme"),
               ("ollama", .obj [("model", .str "m"), ("gpu_layers", .num 33)]),
               ("rag", .obj [("ocr", .obj [("lang", .str "en")])])])
        (ConfigDraft.mk "llama" "0.7" "1000" "3" true true false false "")).lookupPath
      ["rag", "ocr", "lang"] = some (.str "en") := by
  have hok : saveSettingsBody (fun _ => .num 0)
      (.obj [("custom", .str "keepme"),
             ("ollama", .obj [("model", .str "m"), ("gpu_layers", .num 33)]),
             ("rag", .obj [("ocr", .obj [("lang", .str "en")])])])
      (ConfigDraft.mk "llama" "0.7" "1000" "3" true true false false "") =
    .ok (saveSettingsBodyD (fun _ => .num 0)
      (.obj [("custom", .str "keepme"),
             ("ollama", .obj [("model", .str "m"), ("gpu_layers", .num 33)]),
             ("rag", .obj [("ocr", .obj [("lang", .str "en")])])])
      (ConfigDraft.mk "llama" "0.7" "1000" "3" true true false false "")) := rfl
  refine ⟨hok, ?_, ?_, ?_⟩
  · exact (((saveSettings_preserves_unknown_keys (fun _ => .num 0) netOkEmpty _
      (ConfigDraft.mk "llama" "0.7" "1000" "3" true true false false "")).1
      _ hok).1 "custom" (by decide) (by decide)).trans rfl
  · exact (((saveSettings_preserves_unknown_keys (fun _ => .num 0) netOkEmpty _
      (ConfigDraft.mk "llama" "0.7" "1000" "3" true true false false "")).1
      _ hok).2.1 "gpu_layers" (by decide) (by decide) (by decide)).trans rfl
  · exact (((saveSettings_preserves_unknown_keys (fun _ => .num 0) netOkEmpty _
      (ConfigDraft.mk "llama" "0.7" "1000" "3" true true false false "")).1
      _ hok).2.2.2.1 "lang" (by decide)).trans rfl

end PrepBrain
